import Mathlib

/-!
Verification of the WatChMaL launcher (src/main_proper_ddp.py).

The file shallowly embeds the launcher's observable behaviour:

* the per-worker function run(rank, gpu_list, dataset, hydra_config)
  (source lines 109-177) is modelled as a pure function producing the ordered
  trace of calls it makes on its collaborators (process-group setup/teardown,
  model/engine construction, the engine's configure_* methods, the dynamic
  task invocations) together with a success flag (false when the worker
  raises the ValueError of line 156);
* the coordinator main(hydra_config, global_hydra_config)
  (source lines 66-105) is modelled as a pure function of the configuration
  and of whether the dump directory already exists, producing the ordered
  trace of its side effects (makedirs, build_dataset, the gpu-list
  classification branch, worker starts) together with the dataset value and
  the list of workers it runs;
* the dump-directory bootstrap (source lines 72-74) is additionally modelled
  with an explicit two-instant filesystem environment so that the behaviour
  of os.makedirs under a concurrent creation can be stated.

Task descriptions (OmegaConf dictionaries) are modelled as association lists
with the values left opaque (plain strings); dict membership, pop and
iteration keep Python's insertion-order semantics.  The external
collaborators (build_dataset, build_model, instantiate, the engine) are
opaque: only the calls made to them, with their arguments, are recorded.
-/

namespace WatchmalDdp

/-- A task's configuration dictionary: ordered key/value pairs, values opaque. -/
abbrev TaskConfig := List (String × String)

/-- Logical device a worker is bound to: the Python code uses the string cpu
when the gpu list is empty and the integer rank otherwise (source line 111). -/
inductive Device where
| cpu : Device
| idx : Nat → Device
deriving DecidableEq, Repr

/-- A call made on the engine object, with the arguments the source passes. -/
inductive EngineCall where
| configure_data_loaders : String → String → EngineCall
| configure_data_loaders_v2 : String → EngineCall
| configure_optimizers : String → EngineCall
| configure_scheduler : String → EngineCall
| configure_loss : String → EngineCall
| set_dataset : Option String → EngineCall
| invoke : String → TaskConfig → EngineCall
deriving DecidableEq, Repr

/-- An observable action of one worker (the run function, source 109-177). -/
inductive WorkerEv where
| init_process_group : Nat → Nat → WorkerEv
| build_model : String → Device → Bool → WorkerEv
| instantiate_engine : String → Nat → Device → WorkerEv
| engine : EngineCall → WorkerEv
| destroy_process_group : WorkerEv
deriving DecidableEq, Repr

/-- The run configuration fields the launcher reads.  The model, engine and
data fields stand for the corresponding opaque sub-configurations; the
dataset_value field stands for the opaque value the external build_dataset
collaborator returns for this configuration (source line 81). -/
structure HydraConfig where
  gpu_list : List Nat
  dump_path : String
  kind : String
  data : String
  model : String
  engine : String
  dataset_value : String
  tasks : List (String × TaskConfig)
deriving DecidableEq, Repr

/-- Removal of every binding of a key, the effect of dict.pop on an
association list (Python dict keys are unique, so removing the first
occurrence and removing all occurrences agree on reachable states). -/
def removeK (key : String) (c : TaskConfig) : TaskConfig :=
  c.filter fun p => !(p.1 == key)

/-- Python's task_config.pop(key): the value and the shrunken dictionary,
or none when the key is absent. -/
def popKey (key : String) (c : TaskConfig) : Option (String × TaskConfig) :=
  match List.lookup key c with
  | none => none
  | some v => some (v, removeK key c)

/-- Configuration of one task's data_loaders section, source lines 143-156:
dispatch on hydra_config.kind; the cnn entry point receives hydra_config.data
together with the popped section, the gnn entry point receives only the
popped section, and any other kind raises ValueError (modelled as none). -/
def configureLoadersStep (kind data : String) (c : TaskConfig) :
    Option (List EngineCall × TaskConfig) :=
  match popKey "data_loaders" c with
  | none => some ([], c)
  | some (dl, c1) =>
    if kind = "cnn" then some ([EngineCall.configure_data_loaders data dl], c1)
    else if kind = "gnn" then some ([EngineCall.configure_data_loaders_v2 dl], c1)
    else none

/-- Configuration of one optional section that is popped and handed to a
single engine method (source lines 159-168). -/
def configureSimpleStep (key : String) (mk : String → EngineCall) (c : TaskConfig) :
    List EngineCall × TaskConfig :=
  match popKey key c with
  | none => ([], c)
  | some (v, c1) => ([mk v], c1)

/-- Configuration of the optimizers, scheduler and loss sections of one task,
in the fixed source order of lines 159-168. -/
def configureRest (c1 : TaskConfig) : List EngineCall × TaskConfig :=
  let s2 := configureSimpleStep "optimizers" EngineCall.configure_optimizers c1
  let s3 := configureSimpleStep "scheduler" EngineCall.configure_scheduler s2.2
  let s4 := configureSimpleStep "loss" EngineCall.configure_loss s3.2
  (s2.1 ++ s3.1 ++ s4.1, s4.2)

/-- Configuration phase for one task description, source lines 140-168: the
four recognized sections are tested in the fixed source order data_loaders,
optimizers, scheduler, loss; each present section is popped and dispatched.
The result is the list of engine calls made and the mutated description, or
none when the unknown-kind ValueError of line 156 is raised. -/
def configureTask (kind data : String) (c : TaskConfig) :
    Option (List EngineCall × TaskConfig) :=
  match configureLoadersStep kind data c with
  | none => none
  | some (e1, c1) =>
    some (e1 ++ (configureRest c1).1, (configureRest c1).2)

/-- Outcome of the configuration loop over all tasks: the calls made and the
mutated task list, or the calls made before the ValueError aborted the loop. -/
inductive PhaseOut where
| ok : List EngineCall → List (String × TaskConfig) → PhaseOut
| err : List EngineCall → PhaseOut
deriving DecidableEq, Repr

/-- Configuration loop over the ordered task list, source lines 138-168. -/
def configPhase (kind data : String) : List (String × TaskConfig) → PhaseOut
| [] => .ok [] []
| (task, c) :: rest =>
  match configureTask kind data c with
  | none => .err []
  | some (evs, c1) =>
    match configPhase kind data rest with
    | .err evsR => .err (evs ++ evsR)
    | .ok evsR rest1 => .ok (evs ++ evsR) ((task, c1) :: rest1)

/-- Result of one worker: its ordered action trace and whether it completed
normally (false means the ValueError of line 156 propagated out of run). -/
structure RunResult where
  trace : List WorkerEv
  ok : Bool
deriving DecidableEq, Repr

/-- Actions a worker performs before the configuration loop, source lines
111-135: process-group setup only in multi-gpu mode, model construction on
the resolved device with DDP wrapping iff multi-gpu, engine instantiation
bound to rank and device, and set_dataset only for the gnn kind. -/
def preTrace (rank : Nat) (gpu_list : List Nat) (dataset : Option String)
    (cfg : HydraConfig) : List WorkerEv :=
  (if gpu_list.length > 1 then [WorkerEv.init_process_group rank gpu_list.length] else [])
    ++ [WorkerEv.build_model cfg.model
          (if gpu_list.length = 0 then Device.cpu else Device.idx rank)
          (decide (gpu_list.length > 1)),
        WorkerEv.instantiate_engine cfg.engine rank
          (if gpu_list.length = 0 then Device.cpu else Device.idx rank)]
    ++ (if cfg.kind = "gnn" then [WorkerEv.engine (EngineCall.set_dataset dataset)] else [])

/-- The worker function run(rank, gpu_list, dataset, hydra_config), source
lines 109-177.  After the preliminary actions the configuration loop runs
over all tasks; if it raises, the exception propagates and in particular the
destroy_process_group call of line 176 is never reached (there is no
try/finally in the source).  On normal completion every task is invoked by
name with its remaining arguments, then the process group is destroyed in
multi-gpu mode. -/
def run (rank : Nat) (gpu_list : List Nat) (dataset : Option String)
    (cfg : HydraConfig) : RunResult :=
  match configPhase cfg.kind cfg.data cfg.tasks with
  | .err evs => ⟨preTrace rank gpu_list dataset cfg ++ evs.map WorkerEv.engine, false⟩
  | .ok evs tasks1 =>
    ⟨preTrace rank gpu_list dataset cfg ++ evs.map WorkerEv.engine
        ++ tasks1.map (fun p => WorkerEv.engine (EngineCall.invoke p.1 p.2))
        ++ (if gpu_list.length > 1 then [WorkerEv.destroy_process_group] else []),
      true⟩

/-- Launch mode of the coordinator's gpu-list branch, source lines 86-105. -/
inductive LaunchMode where
| cpuOnly : LaunchMode
| singleGpu : LaunchMode
| multiGpu : Nat → LaunchMode
deriving DecidableEq, Repr

/-- An observable action of the coordinator process (main, source 66-105).
The classify action marks the point where the gpu-list branch of lines
86-105 is evaluated; spawn marks a worker being started (inline call of
lines 88 and 92, or one mp.spawn child of line 101). -/
inductive MainEv where
| makedirs : String → MainEv
| build_dataset : MainEv
| classify : LaunchMode → MainEv
| spawn : Nat → MainEv
deriving DecidableEq, Repr

/-- Result of the coordinator: its ordered side-effect trace, the dataset
value it passes to every worker, and the workers it runs, keyed by rank. -/
structure MainResult where
  events : List MainEv
  dataset : Option String
  workers : List (Nat × RunResult)
deriving DecidableEq, Repr

/-- The coordinator main(hydra_config, global_hydra_config), source lines
66-105, as a function of whether dump_path already exists.  Lines 72-74
create the dump directory when absent; lines 80-83 build the dataset exactly
when kind is gnn and pass None otherwise; lines 86-105 branch on the length
of the gpu list and run one inline worker with rank 0, or spawn one worker
per list entry with ranks 0..n-1 (mp.spawn passes the process index as the
first argument of run). -/
def main (dirExists : Bool) (cfg : HydraConfig) : MainResult :=
  let mkEvs : List MainEv := if dirExists then [] else [MainEv.makedirs cfg.dump_path]
  let dataset : Option String := if cfg.kind = "gnn" then some cfg.dataset_value else none
  let dsEvs : List MainEv := if cfg.kind = "gnn" then [MainEv.build_dataset] else []
  if cfg.gpu_list.length = 0 then
    ⟨mkEvs ++ dsEvs ++ [MainEv.classify LaunchMode.cpuOnly, MainEv.spawn 0],
      dataset, [(0, run 0 cfg.gpu_list dataset cfg)]⟩
  else if cfg.gpu_list.length = 1 then
    ⟨mkEvs ++ dsEvs ++ [MainEv.classify LaunchMode.singleGpu, MainEv.spawn 0],
      dataset, [(0, run 0 cfg.gpu_list dataset cfg)]⟩
  else
    ⟨mkEvs ++ dsEvs
        ++ MainEv.classify (LaunchMode.multiGpu cfg.gpu_list.length)
          :: (List.range cfg.gpu_list.length).map MainEv.spawn,
      dataset,
      (List.range cfg.gpu_list.length).map (fun r => (r, run r cfg.gpu_list dataset cfg))⟩

/-- Outcome of the dump-directory bootstrap of source lines 72-74. -/
inductive MkdirResult where
| skipped : MkdirResult
| created : MkdirResult
| fileExistsError : MkdirResult
deriving DecidableEq, Repr

/-- The dump-directory bootstrap, source lines 72-74, against a two-instant
filesystem environment: existsAtCheck is what os.path.exists observes at
line 72 and existsAtMakedirs is whether the directory exists by the time
os.makedirs runs at line 74 (a concurrent launch may create it in between).
os.makedirs is called without exist_ok and raises FileExistsError when its
target already exists. -/
def ensureDumpPath (existsAtCheck existsAtMakedirs : Bool) : MkdirResult :=
  if existsAtCheck then .skipped
  else if existsAtMakedirs then .fileExistsError
  else .created

/-- The four section keys recognized by the configuration phase. -/
def recognizedKeys : List String := ["data_loaders", "optimizers", "scheduler", "loss"]

/-- Recognition of a data-loader configuration call. -/
def isLoaderCall : EngineCall → Bool
| .configure_data_loaders _ _ => true
| .configure_data_loaders_v2 _ => true
| _ => false

/-- Recognition of an optimizer configuration call. -/
def isOptimizersCall : EngineCall → Bool
| .configure_optimizers _ => true
| _ => false

/-- Recognition of a scheduler configuration call. -/
def isSchedulerCall : EngineCall → Bool
| .configure_scheduler _ => true
| _ => false

/-- Recognition of a loss configuration call. -/
def isLossCall : EngineCall → Bool
| .configure_loss _ => true
| _ => false

/-- Recognition of any of the four configure-section calls. -/
def isConfigCall : EngineCall → Bool
| .configure_data_loaders _ _ => true
| .configure_data_loaders_v2 _ => true
| .configure_optimizers _ => true
| .configure_scheduler _ => true
| .configure_loss _ => true
| _ => false

/-- Precedence rank of a configuration call: data loaders, then optimizers,
then scheduler, then loss; anything else last. -/
def precOf : EngineCall → Nat
| .configure_data_loaders _ _ => 0
| .configure_data_loaders_v2 _ => 0
| .configure_optimizers _ => 1
| .configure_scheduler _ => 2
| .configure_loss _ => 3
| _ => 4

/-- Recognition of a configure-section action in a worker trace. -/
def isConfigEv : WorkerEv → Bool
| .engine e => isConfigCall e
| _ => false

/-- Recognition of a dynamic task invocation in a worker trace. -/
def isInvokeEv : WorkerEv → Bool
| .engine (.invoke _ _) => true
| _ => false

/-- Names of the tasks a worker trace invokes, in trace order. -/
def invokedTasks (l : List WorkerEv) : List String :=
  l.filterMap fun e =>
    match e with
    | .engine (.invoke n _) => some n
    | _ => none

/-- Arguments of the set_dataset calls in a worker trace, in trace order. -/
def setDatasetArgs (l : List WorkerEv) : List (Option String) :=
  l.filterMap fun e =>
    match e with
    | .engine (.set_dataset d) => some d
    | _ => none

/-- Devices the engine instantiations of a worker trace are bound to. -/
def engineDevices (l : List WorkerEv) : List Device :=
  l.filterMap fun e =>
    match e with
    | .instantiate_engine _ _ d => some d
    | _ => none

/-- Argument lists of the data-loader dispatch calls in a call list. -/
def loaderCallArgs (l : List EngineCall) : List (List String) :=
  l.filterMap fun e =>
    match e with
    | .configure_data_loaders d s => some [d, s]
    | .configure_data_loaders_v2 s => some [s]
    | _ => none

/-- Data-loader dispatch argument lists produced by configuring one task. -/
def taskLoaderArgs (kind data : String) (c : TaskConfig) : List (List String) :=
  match configureTask kind data c with
  | some (evs, _) => loaderCallArgs evs
  | none => []

/-- Recognition of a spawn action in the coordinator trace. -/
def isSpawnEv : MainEv → Bool
| .spawn _ => true
| _ => false

/-- Recognition of the classification action in the coordinator trace. -/
def isClassifyEv : MainEv → Bool
| .classify _ => true
| _ => false

/-- Recognition of a filesystem or dataset side effect in the coordinator
trace. -/
def isSideEffectEv : MainEv → Bool
| .makedirs _ => true
| .build_dataset => true
| _ => false

/-- Decision that in the list l every element satisfying p occurs strictly
before every element satisfying q (p and q are assumed disjoint): from the
first q-element on, no p-element occurs. -/
def allBefore (p q : MainEv → Bool) (l : List MainEv) : Bool :=
  (l.dropWhile fun e => !(q e)).all fun e => !(p e)

/-- Copy of a configuration with its kind replaced. -/
def setKind (cfg : HydraConfig) (k : String) : HydraConfig :=
  ⟨cfg.gpu_list, cfg.dump_path, k, cfg.data, cfg.model, cfg.engine,
    cfg.dataset_value, cfg.tasks⟩

/-! Dictionary lemmas: lookup after pop. -/

theorem lookup_removeK_self (key : String) (c : TaskConfig) :
    List.lookup key (removeK key c) = none := by
  induction c with
  | nil => rfl
  | cons a t ih =>
    obtain ⟨k, v⟩ := a
    by_cases h : k = key
    · have e : removeK key ((k, v) :: t) = removeK key t := by
        simp [removeK, List.filter_cons, h]
      rw [e]
      exact ih
    · have e : removeK key ((k, v) :: t) = (k, v) :: removeK key t := by
        simp [removeK, List.filter_cons, beq_false_of_ne h]
      have hb : (key == k) = false := beq_false_of_ne fun e2 => h e2.symm
      rw [e, List.lookup_cons, hb]
      exact ih

theorem lookup_removeK_ne (k key : String) (h : k ≠ key) (c : TaskConfig) :
    List.lookup k (removeK key c) = List.lookup k c := by
  induction c with
  | nil => rfl
  | cons a t ih =>
    obtain ⟨k1, v⟩ := a
    by_cases h1 : k1 = key
    · have e : removeK key ((k1, v) :: t) = removeK key t := by
        simp [removeK, List.filter_cons, h1]
      have hb : (k == k1) = false := beq_false_of_ne (h1 ▸ h)
      rw [e, List.lookup_cons, hb]
      exact ih
    · have e : removeK key ((k1, v) :: t) = (k1, v) :: removeK key t := by
        simp [removeK, List.filter_cons, beq_false_of_ne h1]
      rw [e, List.lookup_cons, List.lookup_cons]
      cases hb : k == k1
      · exact ih
      · rfl

theorem removeK_lookup_none (key : String) (c : TaskConfig)
    (h : List.lookup key c = none) : removeK key c = c := by
  induction c with
  | nil => rfl
  | cons a t ih =>
    obtain ⟨k1, v⟩ := a
    rw [List.lookup_cons] at h
    cases hb : key == k1
    · rw [hb] at h
      have h1 : k1 ≠ key := fun e => ne_of_beq_false hb e.symm
      have e : removeK key ((k1, v) :: t) = (k1, v) :: removeK key t := by
        simp [removeK, List.filter_cons, beq_false_of_ne h1]
      rw [e, ih h]
    · rw [hb] at h
      simp at h

/-! Derived closed forms for the per-task configuration step.  The functions
sectionEvs and cleanConfig recompute, directly from the original description,
the calls the configuration phase makes and the description it leaves; the
theorem configureTask_spec proves them equal to the translated source. -/

/-- Calls the configuration of one task makes, recomputed from the original
description: one call per present recognized section, in the fixed source
order. -/
def sectionEvs (kind data : String) (c : TaskConfig) : List EngineCall :=
  (match List.lookup "data_loaders" c with
   | none => []
   | some dl =>
     if kind = "cnn" then [EngineCall.configure_data_loaders data dl]
     else [EngineCall.configure_data_loaders_v2 dl])
  ++ (match List.lookup "optimizers" c with
      | none => []
      | some v => [EngineCall.configure_optimizers v])
  ++ (match List.lookup "scheduler" c with
      | none => []
      | some v => [EngineCall.configure_scheduler v])
  ++ (match List.lookup "loss" c with
      | none => []
      | some v => [EngineCall.configure_loss v])

/-- Description left after the configuration of one task: all four recognized
sections removed. -/
def cleanConfig (c : TaskConfig) : TaskConfig :=
  removeK "loss" (removeK "scheduler" (removeK "optimizers" (removeK "data_loaders" c)))

theorem configureLoadersStep_none (kind data : String) (c : TaskConfig)
    (h : List.lookup "data_loaders" c = none) :
    configureLoadersStep kind data c = some ([], c) := by
  simp [configureLoadersStep, popKey, h]

theorem configureLoadersStep_some (kind data : String) (c : TaskConfig) (dl : String)
    (h : List.lookup "data_loaders" c = some dl) :
    configureLoadersStep kind data c =
      if kind = "cnn" then
        some ([EngineCall.configure_data_loaders data dl], removeK "data_loaders" c)
      else if kind = "gnn" then
        some ([EngineCall.configure_data_loaders_v2 dl], removeK "data_loaders" c)
      else none := by
  simp [configureLoadersStep, popKey, h]

theorem configureSimpleStep_none (key : String) (mk : String → EngineCall)
    (c : TaskConfig) (h : List.lookup key c = none) :
    configureSimpleStep key mk c = ([], c) := by
  simp [configureSimpleStep, popKey, h]

theorem configureSimpleStep_some (key : String) (mk : String → EngineCall)
    (c : TaskConfig) (v : String) (h : List.lookup key c = some v) :
    configureSimpleStep key mk c = ([mk v], removeK key c) := by
  simp [configureSimpleStep, popKey, h]

/-- Closed form of the optimizers/scheduler/loss tail of the per-task
configuration: calls computed from the original description, all three keys
removed. -/
theorem configureRest_spec (c1 : TaskConfig) :
    configureRest c1 =
      ((match List.lookup "optimizers" c1 with
        | none => []
        | some v => [EngineCall.configure_optimizers v])
        ++ (match List.lookup "scheduler" c1 with
            | none => []
            | some v => [EngineCall.configure_scheduler v])
        ++ (match List.lookup "loss" c1 with
            | none => []
            | some v => [EngineCall.configure_loss v]),
       removeK "loss" (removeK "scheduler" (removeK "optimizers" c1))) := by
  have eSc : List.lookup "scheduler" (removeK "optimizers" c1)
      = List.lookup "scheduler" c1 := lookup_removeK_ne _ _ (by decide) c1
  have eLo1 : ∀ x : TaskConfig, List.lookup "loss" (removeK "scheduler" x)
      = List.lookup "loss" x := fun x => lookup_removeK_ne _ _ (by decide) x
  have eLo2 : List.lookup "loss" (removeK "optimizers" c1)
      = List.lookup "loss" c1 := lookup_removeK_ne _ _ (by decide) c1
  rcases hop : List.lookup "optimizers" c1 with _ | o
  · have k2 : removeK "optimizers" c1 = c1 := removeK_lookup_none _ _ hop
    rcases hsc : List.lookup "scheduler" c1 with _ | s
    · have k3 : removeK "scheduler" c1 = c1 := removeK_lookup_none _ _ hsc
      rcases hlo : List.lookup "loss" c1 with _ | l
      · have k4 : removeK "loss" c1 = c1 := removeK_lookup_none _ _ hlo
        simp [configureRest, configureSimpleStep_none _ _ _ hop,
          configureSimpleStep_none _ _ _ hsc, configureSimpleStep_none _ _ _ hlo,
          hop, hsc, hlo, k2, k3, k4]
      · simp [configureRest, configureSimpleStep_none _ _ _ hop,
          configureSimpleStep_none _ _ _ hsc, configureSimpleStep_some _ _ _ _ hlo,
          hop, hsc, hlo, k2, k3]
    · have hlo1 : List.lookup "loss" (removeK "scheduler" c1)
          = List.lookup "loss" c1 := eLo1 c1
      rcases hlo : List.lookup "loss" c1 with _ | l
      · have k4 : removeK "loss" (removeK "scheduler" c1) = removeK "scheduler" c1 :=
          removeK_lookup_none _ _ (hlo1.trans hlo)
        simp [configureRest, configureSimpleStep_none _ _ _ hop,
          configureSimpleStep_some _ _ _ _ hsc,
          configureSimpleStep_none _ _ _ (hlo1.trans hlo),
          hop, hsc, hlo, k2, k4]
      · simp [configureRest, configureSimpleStep_none _ _ _ hop,
          configureSimpleStep_some _ _ _ _ hsc,
          configureSimpleStep_some _ _ _ _ (hlo1.trans hlo),
          hop, hsc, hlo, k2]
  · have hsc1 : List.lookup "scheduler" (removeK "optimizers" c1)
        = List.lookup "scheduler" c1 := eSc
    rcases hsc : List.lookup "scheduler" c1 with _ | s
    · have k3 : removeK "scheduler" (removeK "optimizers" c1) = removeK "optimizers" c1 :=
        removeK_lookup_none _ _ (hsc1.trans hsc)
      rcases hlo : List.lookup "loss" c1 with _ | l
      · have k4 : removeK "loss" (removeK "optimizers" c1) = removeK "optimizers" c1 :=
          removeK_lookup_none _ _ (eLo2.trans hlo)
        simp [configureRest, configureSimpleStep_some _ _ _ _ hop,
          configureSimpleStep_none _ _ _ (hsc1.trans hsc),
          configureSimpleStep_none _ _ _ (eLo2.trans hlo),
          hop, hsc, hlo, k3, k4]
      · simp [configureRest, configureSimpleStep_some _ _ _ _ hop,
          configureSimpleStep_none _ _ _ (hsc1.trans hsc),
          configureSimpleStep_some _ _ _ _ (eLo2.trans hlo),
          hop, hsc, hlo, k3]
    · have hlo1 : List.lookup "loss" (removeK "scheduler" (removeK "optimizers" c1))
          = List.lookup "loss" c1 := (eLo1 _).trans eLo2
      rcases hlo : List.lookup "loss" c1 with _ | l
      · have k4 : removeK "loss" (removeK "scheduler" (removeK "optimizers" c1))
            = removeK "scheduler" (removeK "optimizers" c1) :=
          removeK_lookup_none _ _ (hlo1.trans hlo)
        simp [configureRest, configureSimpleStep_some _ _ _ _ hop,
          configureSimpleStep_some _ _ _ _ (hsc1.trans hsc),
          configureSimpleStep_none _ _ _ (hlo1.trans hlo),
          hop, hsc, hlo, k4]
      · simp [configureRest, configureSimpleStep_some _ _ _ _ hop,
          configureSimpleStep_some _ _ _ _ (hsc1.trans hsc),
          configureSimpleStep_some _ _ _ _ (hlo1.trans hlo),
          hop, hsc, hlo]

/-- Closed form of the whole per-task configuration: it raises exactly when a
data_loaders section is present and the kind is neither cnn nor gnn, and
otherwise makes the calls of sectionEvs and leaves cleanConfig. -/
theorem configureTask_spec (kind data : String) (c : TaskConfig) :
    configureTask kind data c =
      if (List.lookup "data_loaders" c).isSome ∧ kind ≠ "cnn" ∧ kind ≠ "gnn" then none
      else some (sectionEvs kind data c, cleanConfig c) := by
  rcases hdl : List.lookup "data_loaders" c with _ | dl
  · have k1 : removeK "data_loaders" c = c := removeK_lookup_none _ _ hdl
    simp [configureTask, configureLoadersStep_none kind data c hdl,
      configureRest_spec, sectionEvs, cleanConfig, hdl, k1]
  · have eqs : ∀ k : String, k ≠ "data_loaders" →
        List.lookup k (removeK "data_loaders" c) = List.lookup k c :=
      fun k hk => lookup_removeK_ne _ _ hk c
    by_cases hc : kind = "cnn"
    · subst hc
      simp [configureTask, configureLoadersStep_some "cnn" data c dl hdl,
        configureRest_spec, sectionEvs, cleanConfig, hdl,
        eqs "optimizers" (by decide), eqs "scheduler" (by decide),
        eqs "loss" (by decide)]
    · by_cases hg : kind = "gnn"
      · subst hg
        simp [configureTask, configureLoadersStep_some "gnn" data c dl hdl,
          configureRest_spec, sectionEvs, cleanConfig, hdl,
          eqs "optimizers" (by decide), eqs "scheduler" (by decide),
          eqs "loss" (by decide)]
      · simp [configureTask, configureLoadersStep_some kind data c dl hdl, hc, hg, hdl]

/-! Properties of the derived forms. -/

theorem sectionEvs_counts (kind data : String) (c : TaskConfig) :
    (sectionEvs kind data c).countP isLoaderCall
        = (if (List.lookup "data_loaders" c).isSome then 1 else 0)
  ∧ (sectionEvs kind data c).countP isOptimizersCall
        = (if (List.lookup "optimizers" c).isSome then 1 else 0)
  ∧ (sectionEvs kind data c).countP isSchedulerCall
        = (if (List.lookup "scheduler" c).isSome then 1 else 0)
  ∧ (sectionEvs kind data c).countP isLossCall
        = (if (List.lookup "loss" c).isSome then 1 else 0)
  ∧ List.Pairwise (fun a b => precOf a ≤ precOf b) (sectionEvs kind data c) := by
  rcases h1 : List.lookup "data_loaders" c with _ | dl <;>
    rcases h2 : List.lookup "optimizers" c with _ | o <;>
      rcases h3 : List.lookup "scheduler" c with _ | s <;>
        rcases h4 : List.lookup "loss" c with _ | l <;>
          by_cases hk : kind = "cnn" <;>
            simp [sectionEvs, h1, h2, h3, h4, hk, isLoaderCall, isOptimizersCall,
              isSchedulerCall, isLossCall, precOf, List.countP_append, List.countP_cons,
              List.pairwise_append]

theorem sectionEvs_config (kind data : String) (c : TaskConfig) :
    ∀ e ∈ sectionEvs kind data c, isConfigCall e = true := by
  intro e he
  rcases h1 : List.lookup "data_loaders" c with _ | dl <;>
    rcases h2 : List.lookup "optimizers" c with _ | o <;>
      rcases h3 : List.lookup "scheduler" c with _ | s <;>
        rcases h4 : List.lookup "loss" c with _ | l <;>
          by_cases hk : kind = "cnn" <;>
            simp [sectionEvs, h1, h2, h3, h4, hk] at he <;>
            first
            | (subst he; rfl)
            | (rcases he with he | he
               <;> first
                 | (subst he; rfl)
                 | (rcases he with he | he
                    <;> first
                      | (subst he; rfl)
                      | (rcases he with he | he <;> subst he <;> rfl)))

theorem lookup_cleanConfig_recognized (k : String) (c : TaskConfig)
    (hk : k ∈ recognizedKeys) : List.lookup k (cleanConfig c) = none := by
  simp [recognizedKeys] at hk
  rcases hk with rfl | rfl | rfl | rfl
  · rw [cleanConfig, lookup_removeK_ne _ _ (by decide), lookup_removeK_ne _ _ (by decide),
      lookup_removeK_ne _ _ (by decide)]
    exact lookup_removeK_self _ _
  · rw [cleanConfig, lookup_removeK_ne _ _ (by decide), lookup_removeK_ne _ _ (by decide)]
    exact lookup_removeK_self _ _
  · rw [cleanConfig, lookup_removeK_ne _ _ (by decide)]
    exact lookup_removeK_self _ _
  · rw [cleanConfig]
    exact lookup_removeK_self _ _

theorem configureTask_clean (kind data : String) (c : TaskConfig)
    (h : ∀ k ∈ recognizedKeys, List.lookup k c = none) :
    configureTask kind data c = some ([], c) := by
  have h1 := h "data_loaders" (by simp [recognizedKeys])
  have h2 := h "optimizers" (by simp [recognizedKeys])
  have h3 := h "scheduler" (by simp [recognizedKeys])
  have h4 := h "loss" (by simp [recognizedKeys])
  rw [configureTask_spec, if_neg (by simp [h1])]
  simp [sectionEvs, cleanConfig, h1, h2, h3, h4,
    removeK_lookup_none _ _ h1, removeK_lookup_none _ _ h2,
    removeK_lookup_none _ _ h3, removeK_lookup_none _ _ h4]

theorem configureTask_ok_parts (kind data : String) (c : TaskConfig)
    (evs : List EngineCall) (c1 : TaskConfig)
    (h : configureTask kind data c = some (evs, c1)) :
    evs = sectionEvs kind data c ∧ c1 = cleanConfig c := by
  rw [configureTask_spec] at h
  by_cases hcond : (List.lookup "data_loaders" c).isSome ∧ kind ≠ "cnn" ∧ kind ≠ "gnn"
  · rw [if_pos hcond] at h
    cases h
  · rw [if_neg hcond] at h
    simp at h
    exact ⟨h.1.symm, h.2.symm⟩

theorem configureTask_none_iff (kind data : String) (c : TaskConfig) :
    configureTask kind data c = none ↔
      (List.lookup "data_loaders" c).isSome ∧ kind ≠ "cnn" ∧ kind ≠ "gnn" := by
  rw [configureTask_spec]
  by_cases hcond : (List.lookup "data_loaders" c).isSome ∧ kind ≠ "cnn" ∧ kind ≠ "gnn" <;>
    simp [hcond]

theorem configureTask_kind_irrelevant (k1 k2 data : String) (c : TaskConfig)
    (h : List.lookup "data_loaders" c = none) :
    configureTask k1 data c = configureTask k2 data c := by
  rw [configureTask_spec, configureTask_spec]
  simp [h, sectionEvs]

/-! Properties of the configuration loop. -/

theorem configPhase_ok_facts (kind data : String) (tasks : List (String × TaskConfig))
    (evs : List EngineCall) (tasks1 : List (String × TaskConfig))
    (h : configPhase kind data tasks = .ok evs tasks1) :
    tasks1.map Prod.fst = tasks.map Prod.fst
  ∧ (∀ p ∈ tasks1, ∀ k ∈ recognizedKeys, List.lookup k p.2 = none)
  ∧ (∀ e ∈ evs, isConfigCall e = true) := by
  induction tasks generalizing evs tasks1 with
  | nil =>
    simp [configPhase] at h
    obtain ⟨rfl, rfl⟩ := h
    simp
  | cons a t ih =>
    obtain ⟨name, c⟩ := a
    rw [configPhase] at h
    rcases hct : configureTask kind data c with _ | ⟨evs0, c1⟩
    · rw [hct] at h
      cases h
    · rw [hct] at h
      cases hcp : configPhase kind data t with
      | ok evsR rest1 =>
        rw [hcp] at h
        cases h
        obtain ⟨ih1, ih2, ih3⟩ := ih evsR rest1 hcp
        obtain ⟨-, hc1⟩ := configureTask_ok_parts kind data c evs0 c1 hct
        refine ⟨by simp [ih1], ?_, ?_⟩
        · intro p hp
          rcases List.mem_cons.mp hp with rfl | hp'
          · intro k hk
            rw [hc1]
            exact lookup_cleanConfig_recognized k c hk
          · exact ih2 p hp'
        · intro e he
          rcases List.mem_append.mp he with he' | he'
          · obtain ⟨he0, -⟩ := configureTask_ok_parts kind data c evs0 c1 hct
            rw [he0] at he'
            exact sectionEvs_config kind data c e he'
          · exact ih3 e he'
      | err evsR =>
        rw [hcp] at h
        cases h

theorem configPhase_err_facts (kind data : String) (tasks : List (String × TaskConfig))
    (evs : List EngineCall) (h : configPhase kind data tasks = .err evs) :
    ∀ e ∈ evs, isConfigCall e = true := by
  induction tasks generalizing evs with
  | nil => cases h
  | cons a t ih =>
    obtain ⟨name, c⟩ := a
    rw [configPhase] at h
    rcases hct : configureTask kind data c with _ | ⟨evs0, c1⟩
    · rw [hct] at h
      cases h
      simp
    · rw [hct] at h
      cases hcp : configPhase kind data t with
      | ok evsR rest1 =>
        rw [hcp] at h
        cases h
      | err evsR =>
        rw [hcp] at h
        cases h
        intro e he
        rcases List.mem_append.mp he with he' | he'
        · obtain ⟨he0, -⟩ := configureTask_ok_parts kind data c evs0 c1 hct
          rw [he0] at he'
          exact sectionEvs_config kind data c e he'
        · exact ih evsR hcp e he'

theorem configPhase_clean (kind data : String) (ts : List (String × TaskConfig))
    (h : ∀ p ∈ ts, ∀ k ∈ recognizedKeys, List.lookup k p.2 = none) :
    configPhase kind data ts = .ok [] ts := by
  induction ts with
  | nil => rfl
  | cons a t ih =>
    obtain ⟨name, c⟩ := a
    simp [configPhase, configureTask_clean kind data c (h (name, c) (by simp)),
      ih fun p hp => h p (List.mem_cons_of_mem _ hp)]

theorem configPhase_err_of_dl (kind data : String) (ts : List (String × TaskConfig))
    (h1 : kind ≠ "cnn") (h2 : kind ≠ "gnn")
    (h3 : ∃ p ∈ ts, (List.lookup "data_loaders" p.2).isSome = true) :
    ∃ evs, configPhase kind data ts = .err evs := by
  induction ts with
  | nil => simp at h3
  | cons a t ih =>
    obtain ⟨name, c⟩ := a
    by_cases hdl : (List.lookup "data_loaders" c).isSome = true
    · have hct : configureTask kind data c = none :=
        (configureTask_none_iff kind data c).mpr ⟨hdl, h1, h2⟩
      refine ⟨[], ?_⟩
      rw [configPhase, hct]
    · have hct : configureTask kind data c
          = some (sectionEvs kind data c, cleanConfig c) := by
        rw [configureTask_spec, if_neg]
        intro hcond
        exact hdl hcond.1
      have h3' : ∃ p ∈ t, (List.lookup "data_loaders" p.2).isSome = true := by
        rcases h3 with ⟨p, hp, hps⟩
        rcases List.mem_cons.mp hp with rfl | hp'
        · exact absurd hps hdl
        · exact ⟨p, hp', hps⟩
      obtain ⟨evsR, hR⟩ := ih h3'
      refine ⟨sectionEvs kind data c ++ evsR, ?_⟩
      rw [configPhase, hct, hR]

theorem configPhase_ok_of_no_dl (kind data : String) (ts : List (String × TaskConfig))
    (h : ∀ p ∈ ts, List.lookup "data_loaders" p.2 = none) :
    ∃ evs ts1, configPhase kind data ts = .ok evs ts1 := by
  induction ts with
  | nil => exact ⟨[], [], rfl⟩
  | cons a t ih =>
    obtain ⟨name, c⟩ := a
    have hct : configureTask kind data c
        = some (sectionEvs kind data c, cleanConfig c) := by
      rw [configureTask_spec, if_neg]
      intro hcond
      rw [h (name, c) (by simp)] at hcond
      simp at hcond
    obtain ⟨evsR, ts1, hR⟩ := ih fun p hp => h p (List.mem_cons_of_mem _ hp)
    refine ⟨sectionEvs kind data c ++ evsR, (name, cleanConfig c) :: ts1, ?_⟩
    rw [configPhase, hct, hR]

theorem configPhase_blocks (kind data : String) (tasks : List (String × TaskConfig))
    (evs : List EngineCall) (tasks1 : List (String × TaskConfig))
    (h : configPhase kind data tasks = .ok evs tasks1) :
    ∃ blocks : List (List EngineCall), evs = blocks.flatten
      ∧ List.Forall₂ (fun p b => ∃ c1, configureTask kind data p.2 = some (b, c1))
          tasks blocks := by
  induction tasks generalizing evs tasks1 with
  | nil =>
    simp [configPhase] at h
    obtain ⟨rfl, rfl⟩ := h
    exact ⟨[], by simp, List.Forall₂.nil⟩
  | cons a t ih =>
    obtain ⟨name, c⟩ := a
    rw [configPhase] at h
    rcases hct : configureTask kind data c with _ | ⟨evs0, c1⟩
    · rw [hct] at h
      cases h
    · rw [hct] at h
      cases hcp : configPhase kind data t with
      | ok evsR rest1 =>
        rw [hcp] at h
        cases h
        obtain ⟨blocks, hb1, hb2⟩ := ih evsR rest1 hcp
        exact ⟨evs0 :: blocks, by simp [hb1], List.Forall₂.cons ⟨c1, hct⟩ hb2⟩
      | err evsR =>
        rw [hcp] at h
        cases h

theorem configPhase_kind_irrelevant (k1 k2 data : String)
    (ts : List (String × TaskConfig))
    (h : ∀ p ∈ ts, List.lookup "data_loaders" p.2 = none) :
    configPhase k1 data ts = configPhase k2 data ts := by
  induction ts with
  | nil => rfl
  | cons a t ih =>
    obtain ⟨name, c⟩ := a
    rw [configPhase, configPhase,
      configureTask_kind_irrelevant k1 k2 data c (h (name, c) (by simp)),
      ih fun p hp => h p (List.mem_cons_of_mem _ hp)]

/-! Properties of one worker run. -/

theorem run_ok_trace (rank : Nat) (gl : List Nat) (ds : Option String)
    (cfg : HydraConfig) (evs : List EngineCall) (tasks1 : List (String × TaskConfig))
    (h : configPhase cfg.kind cfg.data cfg.tasks = .ok evs tasks1) :
    run rank gl ds cfg =
      ⟨preTrace rank gl ds cfg ++ evs.map WorkerEv.engine
        ++ tasks1.map (fun p => WorkerEv.engine (EngineCall.invoke p.1 p.2))
        ++ (if gl.length > 1 then [WorkerEv.destroy_process_group] else []), true⟩ := by
  simp [run, h]

theorem run_err_trace (rank : Nat) (gl : List Nat) (ds : Option String)
    (cfg : HydraConfig) (evs : List EngineCall)
    (h : configPhase cfg.kind cfg.data cfg.tasks = .err evs) :
    run rank gl ds cfg = ⟨preTrace rank gl ds cfg ++ evs.map WorkerEv.engine, false⟩ := by
  simp [run, h]

theorem invokedTasks_pre (rank : Nat) (gl : List Nat) (ds : Option String)
    (cfg : HydraConfig) : invokedTasks (preTrace rank gl ds cfg) = [] := by
  by_cases h1 : gl.length > 1 <;> by_cases h0 : gl.length = 0 <;>
    by_cases hg : cfg.kind = "gnn" <;>
      simp [preTrace, invokedTasks, h1, h0, hg]

theorem setDatasetArgs_pre (rank : Nat) (gl : List Nat) (ds : Option String)
    (cfg : HydraConfig) :
    setDatasetArgs (preTrace rank gl ds cfg)
      = if cfg.kind = "gnn" then [ds] else [] := by
  by_cases h1 : gl.length > 1 <;> by_cases h0 : gl.length = 0 <;>
    by_cases hg : cfg.kind = "gnn" <;>
      simp [preTrace, setDatasetArgs, h1, h0, hg]

theorem engineDevices_pre (rank : Nat) (gl : List Nat) (ds : Option String)
    (cfg : HydraConfig) :
    engineDevices (preTrace rank gl ds cfg)
      = [if gl.length = 0 then Device.cpu else Device.idx rank] := by
  by_cases h1 : gl.length > 1 <;> by_cases h0 : gl.length = 0 <;>
    by_cases hg : cfg.kind = "gnn" <;>
      simp [preTrace, engineDevices, h1, h0, hg]

theorem invokedTasks_map_engine (evs : List EngineCall)
    (h : ∀ e ∈ evs, isConfigCall e = true) :
    invokedTasks (evs.map WorkerEv.engine) = [] := by
  rw [invokedTasks, List.filterMap_map, List.filterMap_eq_nil_iff]
  intro e he
  have hc := h e he
  cases e <;> simp_all [isConfigCall, Function.comp]

theorem setDatasetArgs_map_engine (evs : List EngineCall)
    (h : ∀ e ∈ evs, isConfigCall e = true) :
    setDatasetArgs (evs.map WorkerEv.engine) = [] := by
  rw [setDatasetArgs, List.filterMap_map, List.filterMap_eq_nil_iff]
  intro e he
  have hc := h e he
  cases e <;> simp_all [isConfigCall, Function.comp]

theorem engineDevices_map_engine (evs : List EngineCall) :
    engineDevices (evs.map WorkerEv.engine) = [] := by
  rw [engineDevices, List.filterMap_map, List.filterMap_eq_nil_iff]
  intro e he
  rfl

theorem invokedTasks_exec (ts : List (String × TaskConfig)) :
    invokedTasks (ts.map fun p => WorkerEv.engine (EngineCall.invoke p.1 p.2))
      = ts.map Prod.fst := by
  rw [invokedTasks, List.filterMap_map]
  induction ts with
  | nil => rfl
  | cons a t ih => simp [List.filterMap_cons, ih, Function.comp]

theorem setDatasetArgs_exec (ts : List (String × TaskConfig)) :
    setDatasetArgs (ts.map fun p => WorkerEv.engine (EngineCall.invoke p.1 p.2)) = [] := by
  rw [setDatasetArgs, List.filterMap_map, List.filterMap_eq_nil_iff]
  intro e he
  rfl

theorem engineDevices_exec (ts : List (String × TaskConfig)) :
    engineDevices (ts.map fun p => WorkerEv.engine (EngineCall.invoke p.1 p.2)) = [] := by
  rw [engineDevices, List.filterMap_map, List.filterMap_eq_nil_iff]
  intro e he
  rfl

theorem invokedTasks_post (gl : List Nat) :
    invokedTasks (if gl.length > 1 then [WorkerEv.destroy_process_group] else []) = [] := by
  by_cases h : gl.length > 1 <;> simp [invokedTasks, h]

theorem setDatasetArgs_post (gl : List Nat) :
    setDatasetArgs (if gl.length > 1 then [WorkerEv.destroy_process_group] else []) = [] := by
  by_cases h : gl.length > 1 <;> simp [setDatasetArgs, h]

theorem engineDevices_post (gl : List Nat) :
    engineDevices (if gl.length > 1 then [WorkerEv.destroy_process_group] else []) = [] := by
  by_cases h : gl.length > 1 <;> simp [engineDevices, h]

theorem setDatasetArgs_run (rank : Nat) (gl : List Nat) (ds : Option String)
    (cfg : HydraConfig) :
    setDatasetArgs (run rank gl ds cfg).trace
      = if cfg.kind = "gnn" then [ds] else [] := by
  cases hcp : configPhase cfg.kind cfg.data cfg.tasks with
  | ok evs tasks1 =>
    rw [run_ok_trace rank gl ds cfg evs tasks1 hcp]
    simp only [setDatasetArgs, List.filterMap_append]
    rw [← setDatasetArgs, ← setDatasetArgs, ← setDatasetArgs, ← setDatasetArgs,
      setDatasetArgs_pre,
      setDatasetArgs_map_engine evs (configPhase_ok_facts _ _ _ _ _ hcp).2.2,
      setDatasetArgs_exec, setDatasetArgs_post]
    simp
  | err evs =>
    rw [run_err_trace rank gl ds cfg evs hcp]
    simp only [setDatasetArgs, List.filterMap_append]
    rw [← setDatasetArgs, ← setDatasetArgs, setDatasetArgs_pre,
      setDatasetArgs_map_engine evs (configPhase_err_facts _ _ _ _ hcp)]
    simp

theorem engineDevices_run (rank : Nat) (gl : List Nat) (ds : Option String)
    (cfg : HydraConfig) :
    engineDevices (run rank gl ds cfg).trace
      = [if gl.length = 0 then Device.cpu else Device.idx rank] := by
  cases hcp : configPhase cfg.kind cfg.data cfg.tasks with
  | ok evs tasks1 =>
    rw [run_ok_trace rank gl ds cfg evs tasks1 hcp]
    simp only [engineDevices, List.filterMap_append]
    rw [← engineDevices, ← engineDevices, ← engineDevices, ← engineDevices,
      engineDevices_pre, engineDevices_map_engine, engineDevices_exec,
      engineDevices_post]
    simp
  | err evs =>
    rw [run_err_trace rank gl ds cfg evs hcp]
    simp only [engineDevices, List.filterMap_append]
    rw [← engineDevices, ← engineDevices, engineDevices_pre, engineDevices_map_engine]
    simp

theorem invoke_mem_invokedTasks (n : String) (k : TaskConfig) (l : List WorkerEv)
    (h : WorkerEv.engine (EngineCall.invoke n k) ∈ l) : n ∈ invokedTasks l := by
  rw [invokedTasks, List.mem_filterMap]
  exact ⟨_, h, rfl⟩

theorem no_invoke_of_invokedTasks_nil (l : List WorkerEv)
    (h : invokedTasks l = []) : l.all (fun e => !(isInvokeEv e)) = true := by
  rw [List.all_eq_true]
  intro e he
  cases e with
  | init_process_group a b => rfl
  | build_model a b u => rfl
  | instantiate_engine a b d => rfl
  | destroy_process_group => rfl
  | engine c =>
    cases c with
    | invoke n k =>
      have hmemb := invoke_mem_invokedTasks n k l he
      rw [h] at hmemb
      exact absurd hmemb (List.not_mem_nil n)
    | configure_data_loaders a b => rfl
    | configure_data_loaders_v2 a => rfl
    | configure_optimizers a => rfl
    | configure_scheduler a => rfl
    | configure_loss a => rfl
    | set_dataset d => rfl

theorem exec_post_no_config (ts : List (String × TaskConfig)) (gl : List Nat) :
    ((ts.map fun p => WorkerEv.engine (EngineCall.invoke p.1 p.2))
      ++ (if gl.length > 1 then [WorkerEv.destroy_process_group] else [])).all
        (fun e => !(isConfigEv e)) = true := by
  rw [List.all_eq_true]
  intro e he
  rcases List.mem_append.mp he with he' | he'
  · rcases List.mem_map.mp he' with ⟨p, -, rfl⟩
    rfl
  · by_cases hgl : gl.length > 1
    · rw [if_pos hgl] at he'
      rw [List.mem_singleton.mp he']
      rfl
    · rw [if_neg hgl] at he'
      cases he'

theorem run_ok_of_no_dl (rank : Nat) (gl : List Nat) (ds : Option String)
    (cfg : HydraConfig)
    (h : ∀ p ∈ cfg.tasks, List.lookup "data_loaders" p.2 = none) :
    (run rank gl ds cfg).ok = true := by
  obtain ⟨evs, ts1, hok⟩ := configPhase_ok_of_no_dl cfg.kind cfg.data cfg.tasks h
  rw [run_ok_trace rank gl ds cfg evs ts1 hok]

theorem run_kind_irrelevant (rank : Nat) (gl : List Nat) (ds : Option String)
    (cfg : HydraConfig) (h2 : cfg.kind ≠ "gnn")
    (h3 : ∀ p ∈ cfg.tasks, List.lookup "data_loaders" p.2 = none) :
    run rank gl ds cfg = run rank gl ds (setKind cfg "cnn") := by
  have hpre : preTrace rank gl ds (setKind cfg "cnn") = preTrace rank gl ds cfg := by
    simp [preTrace, setKind, h2]
  have hcp : configPhase cfg.kind cfg.data cfg.tasks
      = configPhase "cnn" cfg.data cfg.tasks :=
    configPhase_kind_irrelevant _ _ _ _ h3
  simp only [run, setKind, ← hcp]
  simp only [setKind] at hpre
  rw [hpre]

theorem main_dataset_eq (dirExists : Bool) (cfg : HydraConfig) :
    (main dirExists cfg).dataset
      = if cfg.kind = "gnn" then some cfg.dataset_value else none := by
  by_cases h0 : cfg.gpu_list.length = 0 <;> by_cases h1 : cfg.gpu_list.length = 1 <;>
    simp [main, h0, h1]

theorem main_workers_eq (dirExists : Bool) (cfg : HydraConfig) :
    (main dirExists cfg).workers
      = (List.range (if cfg.gpu_list.length ≤ 1 then 1 else cfg.gpu_list.length)).map
          (fun r => (r, run r cfg.gpu_list (main dirExists cfg).dataset cfg)) := by
  by_cases h0 : cfg.gpu_list.length = 0
  · simp [main, h0, List.range_succ]
  · by_cases h1 : cfg.gpu_list.length = 1
    · simp [main, h0, h1, List.range_succ]
    · have hle : ¬ cfg.gpu_list.length ≤ 1 := by omega
      simp [main, h0, h1, hle]

theorem main_events_eq (dirExists : Bool) (cfg : HydraConfig) :
    (main dirExists cfg).events =
      (if dirExists then [] else [MainEv.makedirs cfg.dump_path])
      ++ (if cfg.kind = "gnn" then [MainEv.build_dataset] else [])
      ++ (if cfg.gpu_list.length = 0 then
            [MainEv.classify LaunchMode.cpuOnly, MainEv.spawn 0]
          else if cfg.gpu_list.length = 1 then
            [MainEv.classify LaunchMode.singleGpu, MainEv.spawn 0]
          else MainEv.classify (LaunchMode.multiGpu cfg.gpu_list.length)
              :: (List.range cfg.gpu_list.length).map MainEv.spawn) := by
  by_cases h0 : cfg.gpu_list.length = 0 <;> by_cases h1 : cfg.gpu_list.length = 1 <;>
    simp [main, h0, h1]

/-! Claim theorems. -/

/-- C1: for every task list and every task description in it, each recognized
configuration section (data_loaders, optimizers, scheduler, loss) present in
the description is applied to the engine exactly once during the
configuration phase, in the fixed precedence order data_loaders, optimizers,
scheduler, loss regardless of key order in the source, and is removed from
the description afterward; hence the execution phase invokes the task with
only the remaining non-configuration arguments, and an accidental second
configuration pass over the already-configured tasks makes no engine
configuration calls. -/
theorem sections_applied_once_in_order :
    (∀ kind data c evs c1, configureTask kind data c = some (evs, c1) →
        evs.countP isLoaderCall
            = (if (List.lookup "data_loaders" c).isSome then 1 else 0)
      ∧ evs.countP isOptimizersCall
            = (if (List.lookup "optimizers" c).isSome then 1 else 0)
      ∧ evs.countP isSchedulerCall
            = (if (List.lookup "scheduler" c).isSome then 1 else 0)
      ∧ evs.countP isLossCall
            = (if (List.lookup "loss" c).isSome then 1 else 0)
      ∧ List.Pairwise (fun a b => precOf a ≤ precOf b) evs
      ∧ (∀ k ∈ recognizedKeys, List.lookup k c1 = none)
      ∧ configureTask kind data c1 = some ([], c1))
  ∧ (∀ kind data tasks evs tasks1, configPhase kind data tasks = .ok evs tasks1 →
      configPhase kind data tasks1 = .ok [] tasks1)
  ∧ (∀ rank gl ds cfg name kwargs,
      WorkerEv.engine (EngineCall.invoke name kwargs) ∈ (run rank gl ds cfg).trace →
      ∀ k ∈ recognizedKeys, List.lookup k kwargs = none) := by
  refine ⟨?_, ?_, ?_⟩
  · intro kind data c evs c1 h
    obtain ⟨rfl, rfl⟩ := configureTask_ok_parts kind data c evs c1 h
    obtain ⟨n1, n2, n3, n4, hpw⟩ := sectionEvs_counts kind data c
    have hclean : ∀ k ∈ recognizedKeys, List.lookup k (cleanConfig c) = none :=
      fun k hk => lookup_cleanConfig_recognized k c hk
    exact ⟨n1, n2, n3, n4, hpw, hclean, configureTask_clean kind data _ hclean⟩
  · intro kind data tasks evs tasks1 h
    exact configPhase_clean kind data tasks1 (configPhase_ok_facts _ _ _ _ _ h).2.1
  · intro rank gl ds cfg name kwargs hmem k hk
    cases hcp : configPhase cfg.kind cfg.data cfg.tasks with
    | ok evs tasks1 =>
      rw [run_ok_trace rank gl ds cfg evs tasks1 hcp] at hmem
      simp only [List.mem_append] at hmem
      rcases hmem with ((hpre | hconf) | hexec) | hpost
      · have := invoke_mem_invokedTasks name kwargs _ hpre
        rw [invokedTasks_pre] at this
        exact absurd this (List.not_mem_nil name)
      · have := invoke_mem_invokedTasks name kwargs _ hconf
        rw [invokedTasks_map_engine evs (configPhase_ok_facts _ _ _ _ _ hcp).2.2] at this
        exact absurd this (List.not_mem_nil name)
      · rcases List.mem_map.mp hexec with ⟨p, hp, hpe⟩
        injection hpe with hpe'
        injection hpe' with hn hkw
        rw [← hkw]
        exact (configPhase_ok_facts _ _ _ _ _ hcp).2.1 p hp k hk
      · revert hpost
        by_cases hgl : gl.length > 1 <;> simp [hgl]
    | err evs =>
      rw [run_err_trace rank gl ds cfg evs hcp] at hmem
      rcases List.mem_append.mp hmem with hpre | hconf
      · have := invoke_mem_invokedTasks name kwargs _ hpre
        rw [invokedTasks_pre] at this
        exact absurd this (List.not_mem_nil name)
      · have := invoke_mem_invokedTasks name kwargs _ hconf
        rw [invokedTasks_map_engine evs (configPhase_err_facts _ _ _ _ hcp)] at this
        exact absurd this (List.not_mem_nil name)

/-- Witness for C1 at a concrete description whose source order (loss before
optimizers) differs from the dispatch order. -/
theorem sections_applied_once_in_order_witness :
    configureTask "cnn" "D" [("loss", "L"), ("optimizers", "O"), ("batch", "B")]
        = some ([EngineCall.configure_optimizers "O", EngineCall.configure_loss "L"],
            [("batch", "B")])
  ∧ (∀ k ∈ recognizedKeys, List.lookup k [("batch", "B")] = (none : Option String))
  ∧ configureTask "cnn" "D" [("batch", "B")] = some ([], [("batch", "B")]) :=
  ⟨by decide,
    (sections_applied_once_in_order.1 "cnn" "D"
      [("loss", "L"), ("optimizers", "O"), ("batch", "B")]
      [EngineCall.configure_optimizers "O", EngineCall.configure_loss "L"]
      [("batch", "B")] (by decide)).2.2.2.2.2.1,
    (sections_applied_once_in_order.1 "cnn" "D"
      [("loss", "L"), ("optimizers", "O"), ("batch", "B")]
      [EngineCall.configure_optimizers "O", EngineCall.configure_loss "L"]
      [("batch", "B")] (by decide)).2.2.2.2.2.2⟩

/-- Configuration under which a multi-accelerator worker fails during the
configuration phase: two gpus, an unknown kind, one task with a data_loaders
section. -/
def cfgLeak : HydraConfig :=
  ⟨[0, 1], "out", "bad", "D", "M", "E", "DS", [("train", [("data_loaders", "L")])]⟩

/-- C2: the claim that teardown runs on every exit path fails on the code:
this worker joins the process group (init_process_group is in its trace),
aborts in the configuration phase, and its trace contains no
destroy_process_group call, because run has no try/finally around the task
loops and the ValueError of line 156 propagates past line 176. -/
theorem teardown_skipped_on_config_failure :
    WorkerEv.init_process_group 0 2 ∈ (run 0 [0, 1] none cfgLeak).trace
  ∧ (run 0 [0, 1] none cfgLeak).ok = false
  ∧ WorkerEv.destroy_process_group ∉ (run 0 [0, 1] none cfgLeak).trace := by decide

/-- Configuration with a single listed accelerator whose identifier is 5. -/
def cfgGpu5 : HydraConfig :=
  ⟨[5], "out", "cnn", "D", "M", "E", "DS", [("train", [])]⟩

/-- C3 counterexample: with accelerator list [5] the single worker has rank 0
but its engine is bound to device index 0 (the rank), not to the sole listed
accelerator identifier 5: the claim that the device is the listed entry is
false. -/
theorem single_worker_device_not_listed_id :
    (main true cfgGpu5).workers.map Prod.fst = [0]
  ∧ ¬ (∀ w ∈ (main true cfgGpu5).workers, engineDevices w.2.trace = [Device.idx 5]) := by
  decide

/-- C3 amended: for a list of length 1 the single worker has rank 0 and is
bound to device index 0 (its rank); for length n greater or equal 2 exactly n
workers run with distinct ranks 0..n-1 and rank i is bound to device index i
(its rank).  The device equals the entry at position i of the accelerator
list only when that entry happens to be i; the listed identifiers themselves
are never used for binding. -/
theorem ranks_distinct_devices_equal_rank (dirExists : Bool) (cfg : HydraConfig) :
    (cfg.gpu_list.length = 1 →
        (main dirExists cfg).workers.map Prod.fst = [0]
      ∧ ∀ w ∈ (main dirExists cfg).workers, engineDevices w.2.trace = [Device.idx 0])
  ∧ (2 ≤ cfg.gpu_list.length →
        (main dirExists cfg).workers.map Prod.fst = List.range cfg.gpu_list.length
      ∧ ∀ w ∈ (main dirExists cfg).workers, engineDevices w.2.trace = [Device.idx w.1]) := by
  constructor
  · intro h1
    have h0 : ¬ cfg.gpu_list.length = 0 := by omega
    have hle : cfg.gpu_list.length ≤ 1 := by omega
    rw [main_workers_eq]
    constructor
    · simp [hle, List.range_succ]
    · intro w hw
      simp [hle, List.range_succ] at hw
      rw [hw]
      simp [engineDevices_run, h0]
  · intro h2
    have h0 : ¬ cfg.gpu_list.length = 0 := by omega
    have hle : ¬ cfg.gpu_list.length ≤ 1 := by omega
    rw [main_workers_eq]
    constructor
    · rw [List.map_map]
      have he : (Prod.fst ∘ fun r =>
          (r, run r cfg.gpu_list (main dirExists cfg).dataset cfg)) = id := rfl
      simp [hle, he]
    · intro w hw
      simp [hle] at hw
      obtain ⟨r, -, rfl⟩ := hw
      simp [engineDevices_run, h0]

/-- Configuration with two listed accelerators. -/
def cfgTwoGpu : HydraConfig :=
  ⟨[0, 1], "out", "cnn", "D", "M", "E", "DS", [("train", [])]⟩

/-- Witness for the amended C3 on the two-accelerator configuration. -/
theorem ranks_distinct_devices_equal_rank_witness :
    2 ≤ cfgTwoGpu.gpu_list.length
  ∧ ((main true cfgTwoGpu).workers.map Prod.fst = List.range cfgTwoGpu.gpu_list.length
      ∧ ∀ w ∈ (main true cfgTwoGpu).workers, engineDevices w.2.trace = [Device.idx w.1]) :=
  ⟨by decide, (ranks_distinct_devices_equal_rank true cfgTwoGpu).2 (by decide)⟩

/-- C4: when a worker completes normally, the execution phase invokes the
engine methods in exactly the original task-list order, independent of how
many configuration sections each task carried; the whole trace splits into a
prefix with no task invocation followed by a suffix with no configuration
call, so all configuration precedes the first task execution; and the
configuration phase iterates the tasks in that same original order: the
configuration segment of the trace is the concatenation, task by task in
task-list order, of the call blocks the per-task configuration produces. -/
theorem execution_order_matches_task_list (rank : Nat) (gl : List Nat)
    (ds : Option String) (cfg : HydraConfig)
    (h : (run rank gl ds cfg).ok = true) :
    invokedTasks (run rank gl ds cfg).trace = cfg.tasks.map Prod.fst
  ∧ (∃ A B, (run rank gl ds cfg).trace = A ++ B
      ∧ A.all (fun e => !(isInvokeEv e)) = true
      ∧ B.all (fun e => !(isConfigEv e)) = true)
  ∧ ∃ evs tasks1 blocks,
      configPhase cfg.kind cfg.data cfg.tasks = .ok evs tasks1
    ∧ tasks1.map Prod.fst = cfg.tasks.map Prod.fst
    ∧ (run rank gl ds cfg).trace
        = preTrace rank gl ds cfg ++ evs.map WorkerEv.engine
          ++ tasks1.map (fun p => WorkerEv.engine (EngineCall.invoke p.1 p.2))
          ++ (if gl.length > 1 then [WorkerEv.destroy_process_group] else [])
    ∧ evs = blocks.flatten
    ∧ List.Forall₂ (fun p b => ∃ c1, configureTask cfg.kind cfg.data p.2 = some (b, c1))
        cfg.tasks blocks := by
  cases hcp : configPhase cfg.kind cfg.data cfg.tasks with
  | err evs =>
    rw [run_err_trace rank gl ds cfg evs hcp] at h
    cases h
  | ok evs tasks1 =>
    obtain ⟨hnames, -, hcfg⟩ := configPhase_ok_facts _ _ _ _ _ hcp
    obtain ⟨blocks, hb1, hb2⟩ := configPhase_blocks _ _ _ _ _ hcp
    rw [run_ok_trace rank gl ds cfg evs tasks1 hcp]
    refine ⟨?_, ?_, evs, tasks1, blocks, rfl, hnames, rfl, hb1, hb2⟩
    · simp only [invokedTasks, List.filterMap_append]
      rw [← invokedTasks, ← invokedTasks, ← invokedTasks, ← invokedTasks,
        invokedTasks_pre, invokedTasks_map_engine evs hcfg, invokedTasks_exec,
        invokedTasks_post]
      simp [hnames]
    · refine ⟨preTrace rank gl ds cfg ++ evs.map WorkerEv.engine,
        (tasks1.map fun p => WorkerEv.engine (EngineCall.invoke p.1 p.2))
          ++ (if gl.length > 1 then [WorkerEv.destroy_process_group] else []),
        by simp, ?_, exec_post_no_config tasks1 gl⟩
      rw [List.all_append, Bool.and_eq_true]
      exact ⟨no_invoke_of_invokedTasks_nil _ (invokedTasks_pre rank gl ds cfg),
        no_invoke_of_invokedTasks_nil _ (invokedTasks_map_engine evs hcfg)⟩

/-- Configuration with two tasks, the first carrying a configuration
section, the second carrying none. -/
def cfgTwoTasks : HydraConfig :=
  ⟨[], "out", "cnn", "D", "M", "E", "DS",
    [("train", [("optimizers", "O"), ("batch_size", "8")]), ("evaluate", [])]⟩

/-- Witness for C4 on a completed two-task run. -/
theorem execution_order_matches_task_list_witness :
    (run 0 [] none cfgTwoTasks).ok = true
  ∧ (invokedTasks (run 0 [] none cfgTwoTasks).trace = cfgTwoTasks.tasks.map Prod.fst
      ∧ (∃ A B, (run 0 [] none cfgTwoTasks).trace = A ++ B
          ∧ A.all (fun e => !(isInvokeEv e)) = true
          ∧ B.all (fun e => !(isConfigEv e)) = true)
      ∧ ∃ evs tasks1 blocks,
          configPhase cfgTwoTasks.kind cfgTwoTasks.data cfgTwoTasks.tasks
            = .ok evs tasks1
        ∧ tasks1.map Prod.fst = cfgTwoTasks.tasks.map Prod.fst
        ∧ (run 0 [] none cfgTwoTasks).trace
            = preTrace 0 [] none cfgTwoTasks ++ evs.map WorkerEv.engine
              ++ tasks1.map (fun p => WorkerEv.engine (EngineCall.invoke p.1 p.2))
              ++ (if ([] : List Nat).length > 1 then [WorkerEv.destroy_process_group]
                  else [])
        ∧ evs = blocks.flatten
        ∧ List.Forall₂ (fun p b => ∃ c1,
              configureTask cfgTwoTasks.kind cfgTwoTasks.data p.2 = some (b, c1))
            cfgTwoTasks.tasks blocks) :=
  ⟨by decide, execution_order_matches_task_list 0 [] none cfgTwoTasks (by decide)⟩

/-- C5: when the kind is neither cnn nor gnn and some task description
contains a data_loaders section, the worker aborts during the configuration
phase (run raises the ValueError of line 156, modelled by the false success
flag), before the execution phase begins, and no task method is ever invoked
on the engine. -/
theorem unknown_kind_with_loaders_aborts (rank : Nat) (gl : List Nat)
    (ds : Option String) (cfg : HydraConfig)
    (h1 : cfg.kind ≠ "cnn") (h2 : cfg.kind ≠ "gnn")
    (h3 : ∃ p ∈ cfg.tasks, (List.lookup "data_loaders" p.2).isSome = true) :
    (run rank gl ds cfg).ok = false
  ∧ invokedTasks (run rank gl ds cfg).trace = [] := by
  obtain ⟨evs, hevs⟩ := configPhase_err_of_dl cfg.kind cfg.data cfg.tasks h1 h2 h3
  rw [run_err_trace rank gl ds cfg evs hevs]
  refine ⟨rfl, ?_⟩
  simp only [invokedTasks, List.filterMap_append]
  rw [← invokedTasks, ← invokedTasks, invokedTasks_pre,
    invokedTasks_map_engine evs (configPhase_err_facts _ _ _ _ hevs)]
  rfl

/-- Configuration with an unknown kind and a data_loaders section. -/
def cfgUnknownKind : HydraConfig :=
  ⟨[], "out", "xyz", "D", "M", "E", "DS", [("train", [("data_loaders", "L")])]⟩

/-- Witness for C5 on a concrete unknown-kind run. -/
theorem unknown_kind_with_loaders_aborts_witness :
    (cfgUnknownKind.kind ≠ "cnn" ∧ cfgUnknownKind.kind ≠ "gnn"
      ∧ ∃ p ∈ cfgUnknownKind.tasks, (List.lookup "data_loaders" p.2).isSome = true)
  ∧ ((run 0 [] none cfgUnknownKind).ok = false
      ∧ invokedTasks (run 0 [] none cfgUnknownKind).trace = []) :=
  ⟨⟨by decide, by decide, by decide⟩,
    unknown_kind_with_loaders_aborts 0 [] none cfgUnknownKind
      (by decide) (by decide) (by decide)⟩

/-- C6: per coordinator run the dataset builder is invoked at most once, in
the controlling process before any worker starts (exactly once when the kind
is gnn, never otherwise, where the dataset value is None); the same value is
passed to every worker, and a worker calls set_dataset with it if and only
if the kind is gnn. -/
theorem dataset_built_once_before_workers (dirExists : Bool) (cfg : HydraConfig) :
    ((main dirExists cfg).events.count MainEv.build_dataset
        = if cfg.kind = "gnn" then 1 else 0)
  ∧ (∃ A B, (main dirExists cfg).events = A ++ B
      ∧ A.all (fun e => !(isSpawnEv e)) = true
      ∧ B.all (fun e => !(e == MainEv.build_dataset)) = true)
  ∧ (main dirExists cfg).dataset
      = (if cfg.kind = "gnn" then some cfg.dataset_value else none)
  ∧ ((main dirExists cfg).workers.all fun w =>
      setDatasetArgs w.2.trace
        == (if cfg.kind = "gnn" then [some cfg.dataset_value] else [])) = true := by
  refine ⟨?_, ?_, main_dataset_eq dirExists cfg, ?_⟩
  · rw [main_events_eq, List.count_append, List.count_append]
    have c1 : (if dirExists then [] else [MainEv.makedirs cfg.dump_path]).count
        MainEv.build_dataset = 0 := by
      by_cases hd : dirExists <;> simp [hd]
    have c2 : (if cfg.kind = "gnn" then [MainEv.build_dataset] else []).count
        MainEv.build_dataset = (if cfg.kind = "gnn" then 1 else 0) := by
      by_cases hg : cfg.kind = "gnn" <;> simp [hg]
    have c3 : (if cfg.gpu_list.length = 0 then
          [MainEv.classify LaunchMode.cpuOnly, MainEv.spawn 0]
        else if cfg.gpu_list.length = 1 then
          [MainEv.classify LaunchMode.singleGpu, MainEv.spawn 0]
        else MainEv.classify (LaunchMode.multiGpu cfg.gpu_list.length)
            :: (List.range cfg.gpu_list.length).map MainEv.spawn).count
        MainEv.build_dataset = 0 := by
      rw [List.count_eq_zero]
      by_cases h0 : cfg.gpu_list.length = 0 <;> by_cases h1 : cfg.gpu_list.length = 1 <;>
        simp [h0, h1]
    rw [c1, c2, c3]
    omega
  · refine ⟨(if dirExists then [] else [MainEv.makedirs cfg.dump_path])
        ++ (if cfg.kind = "gnn" then [MainEv.build_dataset] else []),
      (if cfg.gpu_list.length = 0 then
          [MainEv.classify LaunchMode.cpuOnly, MainEv.spawn 0]
        else if cfg.gpu_list.length = 1 then
          [MainEv.classify LaunchMode.singleGpu, MainEv.spawn 0]
        else MainEv.classify (LaunchMode.multiGpu cfg.gpu_list.length)
            :: (List.range cfg.gpu_list.length).map MainEv.spawn),
      main_events_eq dirExists cfg, ?_, ?_⟩
    · by_cases hd : dirExists <;> by_cases hg : cfg.kind = "gnn" <;>
        simp [hd, hg, isSpawnEv]
    · rw [List.all_eq_true]
      intro e he
      by_cases h0 : cfg.gpu_list.length = 0
      · rw [if_pos h0] at he
        simp only [List.mem_cons, List.not_mem_nil, or_false] at he
        rcases he with rfl | rfl
        · rfl
        · rfl
      · by_cases h1 : cfg.gpu_list.length = 1
        · rw [if_neg h0, if_pos h1] at he
          simp only [List.mem_cons, List.not_mem_nil, or_false] at he
          rcases he with rfl | rfl
          · rfl
          · rfl
        · rw [if_neg h0, if_neg h1] at he
          rcases List.mem_cons.mp he with rfl | he'
          · rfl
          · rcases List.mem_map.mp he' with ⟨r, -, rfl⟩
            rfl
  · rw [List.all_eq_true]
    intro w hw
    rw [main_workers_eq] at hw
    rcases List.mem_map.mp hw with ⟨r, -, rfl⟩
    rw [setDatasetArgs_run, main_dataset_eq]
    by_cases hg : cfg.kind = "gnn" <;> simp [hg]

/-- C7 counterexample: for the gnn kind the data-loaders dispatch passes only
the popped section contents to configure_data_loaders_v2; the run-level data
configuration "D" is not among the arguments of the dispatch call, so the
claim that both entry points receive the run-level data configuration is
false. -/
theorem gnn_loader_dispatch_lacks_data_config :
    taskLoaderArgs "gnn" "D" [("data_loaders", "S")] = [["S"]]
  ∧ ¬ (∀ args ∈ taskLoaderArgs "gnn" "D" [("data_loaders", "S")], "D" ∈ args) := by
  decide

/-- C7 amended: when a task description contains a data_loaders section, the
configuration of that task makes exactly one data-loaders dispatch call:
configure_data_loaders receiving the run-level data configuration together
with the section contents when the kind is cnn, and configure_data_loaders_v2
receiving only the section contents when the kind is gnn. -/
theorem loader_dispatch_entry_points (kind data : String) (c : TaskConfig) (dl : String)
    (evs : List EngineCall) (c1 : TaskConfig)
    (hdl : List.lookup "data_loaders" c = some dl)
    (h : configureTask kind data c = some (evs, c1)) :
    (kind = "cnn" →
      evs.filter isLoaderCall = [EngineCall.configure_data_loaders data dl])
  ∧ (kind = "gnn" →
      evs.filter isLoaderCall = [EngineCall.configure_data_loaders_v2 dl]) := by
  obtain ⟨rfl, -⟩ := configureTask_ok_parts kind data c evs c1 h
  constructor <;> intro hk <;> subst hk <;>
    rcases h2 : List.lookup "optimizers" c with _ | o <;>
      rcases h3 : List.lookup "scheduler" c with _ | s <;>
        rcases h4 : List.lookup "loss" c with _ | l <;>
          simp [sectionEvs, hdl, h2, h3, h4, List.filter_append, isLoaderCall]

/-- Witness for the amended C7 on a concrete cnn dispatch. -/
theorem loader_dispatch_entry_points_witness :
    (List.lookup "data_loaders" [("data_loaders", "S")] = some "S"
      ∧ configureTask "cnn" "D" [("data_loaders", "S")]
          = some ([EngineCall.configure_data_loaders "D" "S"], []))
  ∧ (("cnn" = "cnn" →
        [EngineCall.configure_data_loaders "D" "S"].filter isLoaderCall
          = [EngineCall.configure_data_loaders "D" "S"])
    ∧ ("cnn" = "gnn" →
        [EngineCall.configure_data_loaders "D" "S"].filter isLoaderCall
          = [EngineCall.configure_data_loaders_v2 "S"])) :=
  ⟨⟨by decide, by decide⟩,
    loader_dispatch_entry_points "cnn" "D" [("data_loaders", "S")] "S"
      [EngineCall.configure_data_loaders "D" "S"] [] (by decide) (by decide)⟩

/-- Configuration for a cpu-only gnn run against a fresh dump directory. -/
def cfgGnnCpu : HydraConfig :=
  ⟨[], "out", "gnn", "D", "M", "E", "DS", [("train", [])]⟩

/-- C8 counterexample: in the coordinator's trace the makedirs and
build_dataset side effects occur before the gpu-list classification branch
is evaluated, so the claim that the classification is computed before any
output-directory or dataset side effect is false. -/
theorem classification_not_before_side_effects :
    ¬ (allBefore isClassifyEv isSideEffectEv (main false cfgGnnCpu).events = true) := by
  decide

/-- C8 amended: the coordinator's trace splits into a prefix containing no
classification (the conditional makedirs and the conditional build_dataset)
followed by a suffix containing no filesystem or dataset side effect (the
classification branch and the worker starts): the side effects happen before
the launch-mode classification, not after it. -/
theorem side_effects_precede_classification (dirExists : Bool) (cfg : HydraConfig) :
    ∃ A B, (main dirExists cfg).events = A ++ B
      ∧ A.all (fun e => !(isClassifyEv e)) = true
      ∧ B.all (fun e => !(isSideEffectEv e)) = true := by
  refine ⟨(if dirExists then [] else [MainEv.makedirs cfg.dump_path])
      ++ (if cfg.kind = "gnn" then [MainEv.build_dataset] else []),
    (if cfg.gpu_list.length = 0 then
        [MainEv.classify LaunchMode.cpuOnly, MainEv.spawn 0]
      else if cfg.gpu_list.length = 1 then
        [MainEv.classify LaunchMode.singleGpu, MainEv.spawn 0]
      else MainEv.classify (LaunchMode.multiGpu cfg.gpu_list.length)
          :: (List.range cfg.gpu_list.length).map MainEv.spawn),
    main_events_eq dirExists cfg, ?_, ?_⟩
  · by_cases hd : dirExists <;> by_cases hg : cfg.kind = "gnn" <;>
      simp [hd, hg, isClassifyEv]
  · rw [List.all_eq_true]
    intro e he
    by_cases h0 : cfg.gpu_list.length = 0
    · rw [if_pos h0] at he
      simp only [List.mem_cons, List.not_mem_nil, or_false] at he
      rcases he with rfl | rfl
      · rfl
      · rfl
    · by_cases h1 : cfg.gpu_list.length = 1
      · rw [if_neg h0, if_pos h1] at he
        simp only [List.mem_cons, List.not_mem_nil, or_false] at he
        rcases he with rfl | rfl
        · rfl
        · rfl
      · rw [if_neg h0, if_neg h1] at he
        rcases List.mem_cons.mp he with rfl | he'
        · rfl
        · rcases List.mem_map.mp he' with ⟨r, -, rfl⟩
          rfl

/-- C9 counterexample: when the dump directory does not exist at the
os.path.exists check of line 72 but is created by a concurrent launch before
os.makedirs runs at line 74, makedirs raises FileExistsError (it is called
without exist_ok), so the claim that concurrent creation does not fail is
false. -/
theorem makedirs_fails_on_concurrent_creation :
    ensureDumpPath false true = MkdirResult.fileExistsError := by rfl

/-- C9 amended: the dump-directory bootstrap is idempotent with respect to a
directory that already exists at the check (it is skipped and nothing
fails), and it creates the directory when it is absent throughout; but it is
not race-tolerant: a creation by another launch between the existence check
and the makedirs call makes makedirs fail with FileExistsError. -/
theorem ensure_dir_idempotent_not_race_tolerant :
    (∀ b, ensureDumpPath true b = MkdirResult.skipped)
  ∧ ensureDumpPath false false = MkdirResult.created
  ∧ ensureDumpPath false true = MkdirResult.fileExistsError :=
  ⟨fun _ => rfl, rfl, rfl⟩

/-- C10: for every kind outside cnn and gnn, if no task description contains
a data_loaders section, the worker raises no configuration error: the
coordinator behaves exactly as if the kind were cnn - the dataset is None,
every worker completes, and set_dataset is never called - so the invalid
kind goes undetected. -/
theorem unknown_kind_without_loaders_runs_as_cnn (dirExists : Bool)
    (cfg : HydraConfig) (h1 : cfg.kind ≠ "cnn") (h2 : cfg.kind ≠ "gnn")
    (h3 : ∀ p ∈ cfg.tasks, List.lookup "data_loaders" p.2 = none) :
    main dirExists cfg = main dirExists (setKind cfg "cnn")
  ∧ (main dirExists cfg).dataset = none
  ∧ ((main dirExists cfg).workers.all fun w => w.2.ok) = true
  ∧ ((main dirExists cfg).workers.all fun w =>
      setDatasetArgs w.2.trace == []) = true := by
  refine ⟨?_, ?_, ?_, ?_⟩
  · have hrun : ∀ r : Nat, run r cfg.gpu_list none cfg
        = run r cfg.gpu_list none (setKind cfg "cnn") :=
      fun r => run_kind_irrelevant r cfg.gpu_list none cfg h2 h3
    simp only [setKind] at hrun
    by_cases h0 : cfg.gpu_list.length = 0 <;> by_cases hl1 : cfg.gpu_list.length = 1 <;>
      simp [main, setKind, h0, hl1, h2, hrun]
  · rw [main_dataset_eq]
    simp [h2]
  · rw [List.all_eq_true]
    intro w hw
    rw [main_workers_eq] at hw
    rcases List.mem_map.mp hw with ⟨r, -, rfl⟩
    exact run_ok_of_no_dl r cfg.gpu_list _ cfg h3
  · rw [List.all_eq_true]
    intro w hw
    rw [main_workers_eq] at hw
    rcases List.mem_map.mp hw with ⟨r, -, rfl⟩
    rw [setDatasetArgs_run]
    simp [h2]

/-- Configuration with an unknown kind and no data_loaders section. -/
def cfgUnknownNoLoaders : HydraConfig :=
  ⟨[], "out", "xyz", "D", "M", "E", "DS", [("train", [("optimizers", "O")])]⟩

/-- Witness for C10 on a concrete unknown-kind run without loaders. -/
theorem unknown_kind_without_loaders_runs_as_cnn_witness :
    (cfgUnknownNoLoaders.kind ≠ "cnn" ∧ cfgUnknownNoLoaders.kind ≠ "gnn"
      ∧ ∀ p ∈ cfgUnknownNoLoaders.tasks, List.lookup "data_loaders" p.2 = none)
  ∧ (main false cfgUnknownNoLoaders = main false (setKind cfgUnknownNoLoaders "cnn")
      ∧ (main false cfgUnknownNoLoaders).dataset = none
      ∧ ((main false cfgUnknownNoLoaders).workers.all fun w => w.2.ok) = true
      ∧ ((main false cfgUnknownNoLoaders).workers.all fun w =>
          setDatasetArgs w.2.trace == []) = true) :=
  ⟨⟨by decide, by decide, by decide⟩,
    unknown_kind_without_loaders_runs_as_cnn false cfgUnknownNoLoaders
      (by decide) (by decide) (by decide)⟩

end WatchmalDdp
